import Mathlib

/-!
Verification of the permission-matching and authorization-context logic of the
shared-platform SDK (`shared_platform/permissions/client.py` and
`shared_platform/auth/client.py`), embedded shallowly in Lean.
-/

namespace SharedPlatform

/-! ## Python string splitting

`splitChar sep l` models Python's `str.split(sep)` for a one-character
separator `sep`, acting on the character list of the string: every occurrence
of the separator starts a new (possibly empty) segment, and the empty string
splits into the single segment `[[]]`. -/

def splitChar (sep : Char) : List Char → List (List Char)
  | [] => [[]]
  | c :: cs =>
    let rest := splitChar sep cs
    if c = sep then
      [] :: rest
    else
      match rest with
      | r :: rs => (c :: r) :: rs
      | [] => [[c]]

/-- `pySplit sep s` models Python's `s.split(sep)` for a one-character
separator: `"a:b".split(":") = ["a", "b"]`, `":".split(":") = ["", ""]`,
`"*".split(":") = ["*"]`. -/
def pySplit (sep : Char) (s : String) : List String :=
  (splitChar sep s.data).map String.mk

/-! ## Permission matching (`shared_platform/permissions/client.py`) -/

/-- Embedding of `matches_permission(user_permission, required)`
(`permissions/client.py`, lines 182-204): split both strings on `":"`, return
`false` unless both split into exactly two parts, then compare the resource
and action segments, each matching on equality or on the granted side being
`"*"`. -/
def matches_permission (user_permission required : String) : Bool :=
  match pySplit ':' user_permission, pySplit ':' required with
  | [user_resource, user_action], [req_resource, req_action] =>
    if user_resource ≠ "*" ∧ user_resource ≠ req_resource then
      false
    else if user_action ≠ "*" ∧ user_action ≠ req_action then
      false
    else
      true
  | _, _ => false

/-- Embedding of `has_any_permission(user_permissions, required)`
(`permissions/client.py`, lines 207-213): the nested loop with early
`return True` is existential over both lists. -/
def has_any_permission (user_permissions required : List String) : Bool :=
  required.any fun req => user_permissions.any fun perm => matches_permission perm req

/-- Embedding of `has_all_permissions(user_permissions, required)`
(`permissions/client.py`, lines 216-226): the outer loop with a `found` flag
and early `return False` is universal over `required`, existential over
`user_permissions`. -/
def has_all_permissions (user_permissions required : List String) : Bool :=
  required.all fun req => user_permissions.any fun perm => matches_permission perm req

/-! ### Lemmas about `splitChar` and `pySplit` -/

lemma splitChar_of_not_mem (sep : Char) (l : List Char) (h : sep ∉ l) :
    splitChar sep l = [l] := by
  induction l with
  | nil => rfl
  | cons c cs ih =>
    simp only [List.mem_cons, not_or] at h
    obtain ⟨h1, h2⟩ := h
    simp only [splitChar]
    rw [if_neg (fun hc => h1 hc.symm), ih h2]

lemma splitChar_append_sep (sep : Char) (l₁ l₂ : List Char) (h : sep ∉ l₁) :
    splitChar sep (l₁ ++ sep :: l₂) = l₁ :: splitChar sep l₂ := by
  induction l₁ with
  | nil =>
    simp only [List.nil_append, splitChar, if_pos rfl]
    cases hs : splitChar sep l₂ <;> rfl
  | cons c cs ih =>
    simp only [List.mem_cons, not_or] at h
    obtain ⟨h1, h2⟩ := h
    simp only [List.cons_append, splitChar, List.append_eq]
    rw [if_neg (fun hc => h1 hc.symm), ih h2]

lemma pySplit_two_segments (res act : String) (hr : ':' ∉ res.data)
    (ha : ':' ∉ act.data) :
    pySplit ':' (res ++ ":" ++ act) = [res, act] := by
  unfold pySplit
  have hdata : (res ++ ":" ++ act).data = res.data ++ ':' :: act.data := by
    rw [String.data_append, String.data_append, List.append_assoc]
    rfl
  rw [hdata, splitChar_append_sep ':' res.data act.data hr,
    splitChar_of_not_mem ':' act.data ha]
  rfl

lemma pySplit_resource_star (res : String) (hr : ':' ∉ res.data) :
    pySplit ':' (res ++ ":*") = [res, "*"] := by
  unfold pySplit
  have hdata : (res ++ ":*").data = res.data ++ ':' :: ['*'] := by
    rw [String.data_append]
  rw [hdata, splitChar_append_sep ':' res.data ['*'] hr,
    splitChar_of_not_mem ':' ['*'] (by decide)]
  rfl

/-- When both arguments split on `":"` into exactly two segments,
`matches_permission` is the conjunction of the two per-segment checks. -/
lemma matches_permission_of_splits (g r gr ga rr ra : String)
    (hg : pySplit ':' g = [gr, ga]) (hr : pySplit ':' r = [rr, ra]) :
    matches_permission g r = true ↔
      (gr = "*" ∨ gr = rr) ∧ (ga = "*" ∨ ga = ra) := by
  unfold matches_permission
  rw [hg, hr]
  change (if gr ≠ "*" ∧ gr ≠ rr then false
    else if ga ≠ "*" ∧ ga ≠ ra then false else true) = true ↔ _
  split_ifs with h1 h2
  · exact iff_of_false (by simp) (fun h => h.1.elim h1.1 h1.2)
  · exact iff_of_false (by simp) (fun h => h.2.elim h2.1 h2.2)
  · simp only [not_and_or, not_ne_iff] at h1 h2
    exact iff_of_true rfl ⟨h1, h2⟩

/-- `has_any_permission` is the existential over both lists. -/
lemma has_any_permission_iff (G R : List String) :
    has_any_permission G R = true ↔
      ∃ r ∈ R, ∃ g ∈ G, matches_permission g r = true := by
  simp [has_any_permission, List.any_eq_true]

/-- `has_all_permissions` is the universal over `required`, existential over
granted. -/
lemma has_all_permissions_iff (G R : List String) :
    has_all_permissions G R = true ↔
      ∀ r ∈ R, ∃ g ∈ G, matches_permission g r = true := by
  simp [has_all_permissions, List.all_eq_true, List.any_eq_true]

/-! ### Claim C1 -/

/-- C1 counterexample: the claim says `matches_permission "*" p` is `true` for
every required string `p`, but on the concrete input `p = "users:read"` the
code returns `false`: the bare `"*"` splits on `":"` into a single segment and
fails the two-segment shape check before any wildcard comparison. -/
theorem C1_star_counterexample :
    matches_permission "*" "users:read" = false := by decide

/-- C1 (amended): for every required permission string `p`, of any shape,
`matches_permission "*" p` returns `false`: a granted permission that is the
bare `"*"` (no colon) splits into one segment and is rejected by the
two-segment shape check, so it never matches; the form that matches
everything is `"*:*"`. -/
theorem C1_star_never_matches (p : String) :
    matches_permission "*" p = false := by
  unfold matches_permission
  have h : pySplit ':' "*" = ["*"] := rfl
  rw [h]

/-! ### Claim C2 -/

/-- C2: for granted `gr:ga` and required `rr:ra` (each splitting on `":"` into
exactly two segments), `matches_permission` returns `true` iff
(`gr = "*"` or `gr = rr`) and (`ga = "*"` or `ga = ra`); consequently
`matches_permission (r ++ ":*") (r ++ ":" ++ a)` is `true` for every
colon-free resource `r` and action `a`, and two permissions with different
literal (non-wildcard) resource segments never match. -/
theorem C2_segment_matching :
    (∀ g r gr ga rr ra : String,
      pySplit ':' g = [gr, ga] → pySplit ':' r = [rr, ra] →
        (matches_permission g r = true ↔
          (gr = "*" ∨ gr = rr) ∧ (ga = "*" ∨ ga = ra)))
    ∧ (∀ res act : String, ':' ∉ res.data → ':' ∉ act.data →
        matches_permission (res ++ ":*") (res ++ ":" ++ act) = true)
    ∧ (∀ g r gr ga rr ra : String,
      pySplit ':' g = [gr, ga] → pySplit ':' r = [rr, ra] →
        gr ≠ "*" → rr ≠ "*" → gr ≠ rr → matches_permission g r = false) := by
  refine ⟨matches_permission_of_splits, ?_, ?_⟩
  · intro res act hres hact
    rw [(matches_permission_of_splits _ _ res "*" res act
      (pySplit_resource_star res hres) (pySplit_two_segments res act hres hact))]
    exact ⟨Or.inr rfl, Or.inl rfl⟩
  · intro g r gr ga rr ra hg hr hgs _ hne
    rw [← Bool.not_eq_true]
    rw [matches_permission_of_splits g r gr ga rr ra hg hr]
    rintro ⟨(h | h), _⟩ <;> [exact hgs h; exact hne h]

/-- C2 witness: instantiating the segment semantics at concrete permissions:
`"users:*"` matches `"users:read"`, and `"users:read"` does not match
`"teams:read"`. -/
theorem C2_segment_matching_witness :
    matches_permission "users:*" "users:read" = true ∧
    matches_permission "users:read" "teams:read" = false := by
  constructor
  · exact (C2_segment_matching.1 "users:*" "users:read" "users" "*" "users"
      "read" rfl rfl).mpr ⟨Or.inr rfl, Or.inl rfl⟩
  · exact C2_segment_matching.2.2 "users:read" "teams:read" "users" "read"
      "teams" "read" rfl rfl (by decide) (by decide) (by decide)

/-! ### Claim C3 -/

/-- C3 counterexample: the claim says a permission string with an empty
segment (such as `":"`) never matches and is never matched, but the code only
checks the segment count, not non-emptiness: granted `":"` matches
required `":"` (both split into two empty segments, which compare equal). -/
theorem C3_empty_segments_counterexample :
    matches_permission ":" ":" = true := by decide

/-- C3 (amended): for every pair of input strings, if either the granted or
the required string does not split on `":"` into exactly two segments,
`matches_permission` returns `false` (this covers the bare `"*"` as well);
segments may however be empty — a string such as `":"` or `"users:"` still
has exactly two segments and participates in matching, with empty segments
compared literally. -/
theorem C3_shape_check (g r : String)
    (h : (pySplit ':' g).length ≠ 2 ∨ (pySplit ':' r).length ≠ 2) :
    matches_permission g r = false := by
  unfold matches_permission
  rcases hg : pySplit ':' g with _ | ⟨a, _ | ⟨b, _ | ⟨c, gs⟩⟩⟩ <;>
    rcases hr : pySplit ':' r with _ | ⟨x, _ | ⟨y, _ | ⟨z, rs⟩⟩⟩ <;>
      first
        | rfl
        | (exfalso; rw [hg, hr] at h; simp at h)

/-- C3 witness: `"users"` splits into one segment, so it matches nothing. -/
theorem C3_shape_check_witness :
    matches_permission "users" "users:read" = false :=
  C3_shape_check "users" "users:read" (Or.inl (by decide))

/-! ### Claim C4 -/

/-- C4: `has_any_permission G R` is `true` iff some required `r ∈ R` is
matched by some granted `g ∈ G`; in particular it is `false` whenever `R` is
empty. -/
theorem C4_has_any_existential :
    (∀ G R : List String,
      has_any_permission G R = true ↔
        ∃ r ∈ R, ∃ g ∈ G, matches_permission g r = true)
    ∧ (∀ G : List String, has_any_permission G [] = false) :=
  ⟨has_any_permission_iff, fun _ => rfl⟩

/-- C4 witness: the existential characterization instantiated on concrete
lists — `"users:*"` matches the second required permission. -/
theorem C4_has_any_existential_witness :
    has_any_permission ["users:*"] ["teams:read", "users:read"] = true :=
  (C4_has_any_existential.1 ["users:*"] ["teams:read", "users:read"]).mpr
    (by decide)

/-! ### Claim C5 -/

/-- C5: `has_all_permissions G R` is `true` iff every required `r ∈ R` is
matched by some granted `g ∈ G`; in particular it is `true` whenever `R` is
empty (vacuous universal). -/
theorem C5_has_all_universal :
    (∀ G R : List String,
      has_all_permissions G R = true ↔
        ∀ r ∈ R, ∃ g ∈ G, matches_permission g r = true)
    ∧ (∀ G : List String, has_all_permissions G [] = true) :=
  ⟨has_all_permissions_iff, fun _ => rfl⟩

/-- C5 witness: the universal characterization instantiated on concrete
lists — every required permission is matched by some granted one. -/
theorem C5_has_all_universal_witness :
    has_all_permissions ["users:*", "teams:read"] ["users:read", "teams:read"]
      = true :=
  (C5_has_all_universal.1 ["users:*", "teams:read"]
    ["users:read", "teams:read"]).mpr (by decide)

/-! ### Claim C6

To settle the no-exception claim, the three functions are re-embedded in the
`Except` monad, making the one fallible Python operation — tuple unpacking of
a split result — explicit: `unpack2` raises (`ValueError`) unless the list
has exactly two elements, and any raised error propagates. The claim theorem
shows every run returns `Except.ok` with the same boolean as the pure
embedding. -/

/-- Python tuple unpacking `a, b = parts`: raises `ValueError` unless the
list has exactly two elements. -/
def unpack2 (l : List String) : Except String (String × String) :=
  match l with
  | [a, b] => Except.ok (a, b)
  | _ => Except.error "ValueError"

/-- Exception-aware embedding of `matches_permission`: same structure as the
source, with the guarded tuple unpacking made explicit and errors
propagated. -/
def matchesPermissionE (user_permission required : String) :
    Except String Bool :=
  let user_parts := pySplit ':' user_permission
  let required_parts := pySplit ':' required
  if user_parts.length ≠ 2 ∨ required_parts.length ≠ 2 then
    Except.ok false
  else
    match unpack2 user_parts, unpack2 required_parts with
    | Except.ok (user_resource, user_action),
      Except.ok (req_resource, req_action) =>
      if user_resource ≠ "*" ∧ user_resource ≠ req_resource then
        Except.ok false
      else if user_action ≠ "*" ∧ user_action ≠ req_action then
        Except.ok false
      else
        Except.ok true
    | Except.error e, _ => Except.error e
    | Except.ok _, Except.error e => Except.error e

/-- Exception-aware inner loop of `has_any_permission` /
`has_all_permissions`: scan the granted list, propagating any error raised by
`matchesPermissionE`. -/
def anyMatchE (user_permissions : List String) (req : String) :
    Except String Bool :=
  match user_permissions with
  | [] => Except.ok false
  | perm :: rest =>
    match matchesPermissionE perm req with
    | Except.error e => Except.error e
    | Except.ok true => Except.ok true
    | Except.ok false => anyMatchE rest req

/-- Exception-aware embedding of `has_any_permission`. -/
def hasAnyPermissionE (user_permissions required : List String) :
    Except String Bool :=
  match required with
  | [] => Except.ok false
  | req :: rest =>
    match anyMatchE user_permissions req with
    | Except.error e => Except.error e
    | Except.ok true => Except.ok true
    | Except.ok false => hasAnyPermissionE user_permissions rest

/-- Exception-aware embedding of `has_all_permissions`. -/
def hasAllPermissionsE (user_permissions required : List String) :
    Except String Bool :=
  match required with
  | [] => Except.ok true
  | req :: rest =>
    match anyMatchE user_permissions req with
    | Except.error e => Except.error e
    | Except.ok false => Except.ok false
    | Except.ok true => hasAllPermissionsE user_permissions rest

lemma matchesPermissionE_ok (g r : String) :
    matchesPermissionE g r = Except.ok (matches_permission g r) := by
  unfold matchesPermissionE matches_permission
  rcases hg : pySplit ':' g with _ | ⟨a, _ | ⟨b, _ | ⟨c, gs⟩⟩⟩ <;>
    rcases hr : pySplit ':' r with _ | ⟨x, _ | ⟨y, _ | ⟨z, rs⟩⟩⟩ <;>
      (simp [unpack2]; try split_ifs) <;> (try simp_all; try tauto)

lemma anyMatchE_ok (G : List String) (req : String) :
    anyMatchE G req
      = Except.ok (G.any fun perm => matches_permission perm req) := by
  induction G with
  | nil => rfl
  | cons p ps ih =>
    simp only [anyMatchE, matchesPermissionE_ok, List.any_cons]
    cases h : matches_permission p req <;> simp [h, ih]

lemma hasAnyPermissionE_ok (G R : List String) :
    hasAnyPermissionE G R = Except.ok (has_any_permission G R) := by
  induction R with
  | nil => rfl
  | cons req rest ih =>
    simp only [hasAnyPermissionE, anyMatchE_ok, has_any_permission,
      List.any_cons]
    cases h : G.any fun perm => matches_permission perm req <;>
      simp [h, ih, has_any_permission]

lemma hasAllPermissionsE_ok (G R : List String) :
    hasAllPermissionsE G R = Except.ok (has_all_permissions G R) := by
  induction R with
  | nil => rfl
  | cons req rest ih =>
    simp only [hasAllPermissionsE, anyMatchE_ok, has_all_permissions,
      List.all_cons]
    cases h : G.any fun perm => matches_permission perm req <;>
      simp [h, ih, has_all_permissions]

/-- C6: `matches_permission`, `has_any_permission` and `has_all_permissions`
are total and never raise on any string inputs: in the exception-aware
embedding, where Python's fallible tuple unpacking can raise and errors
propagate, every run returns `Except.ok` of exactly the boolean the pure
embedding computes — malformed permission strings simply yield `false`,
never an exception. -/
theorem C6_total_never_raises :
    (∀ g r : String,
      matchesPermissionE g r = Except.ok (matches_permission g r))
    ∧ (∀ G R : List String,
      hasAnyPermissionE G R = Except.ok (has_any_permission G R))
    ∧ (∀ G R : List String,
      hasAllPermissionsE G R = Except.ok (has_all_permissions G R)) :=
  ⟨matchesPermissionE_ok, hasAnyPermissionE_ok, hasAllPermissionsE_ok⟩

/-! ### Claim C10 -/

/-- C10: granted-list monotonicity — if every granted permission in `G` is
also in `G'`, then `has_any_permission G R = true` implies
`has_any_permission G' R = true`, and likewise for `has_all_permissions`:
adding granted permissions never turns an allow into a deny. -/
theorem C10_granted_monotone (G G' R : List String)
    (hsub : ∀ g ∈ G, g ∈ G') :
    (has_any_permission G R = true → has_any_permission G' R = true)
    ∧ (has_all_permissions G R = true → has_all_permissions G' R = true) := by
  constructor
  · intro h
    rw [has_any_permission_iff] at h ⊢
    obtain ⟨r, hr, g, hg, hm⟩ := h
    exact ⟨r, hr, g, hsub g hg, hm⟩
  · intro h
    rw [has_all_permissions_iff] at h ⊢
    intro r hr
    obtain ⟨g, hg, hm⟩ := h r hr
    exact ⟨g, hsub g hg, hm⟩

/-- C10 witness: enlarging the granted list from `["users:*"]` to
`["users:*", "teams:read"]` preserves the allow decisions. -/
theorem C10_granted_monotone_witness :
    has_any_permission ["users:*", "teams:read"] ["users:read"] = true ∧
    has_all_permissions ["users:*", "teams:read"] ["users:read"] = true := by
  constructor
  · exact (C10_granted_monotone ["users:*"] ["users:*", "teams:read"]
      ["users:read"] (by decide)).1 (by decide)
  · exact (C10_granted_monotone ["users:*"] ["users:*", "teams:read"]
      ["users:read"] (by decide)).2 (by decide)

/-! ## Authorization context (`shared_platform/auth/client.py`)

The decoded JWT claims are modelled as a record of optional fields, matching
the `claims.get(...)` accesses in `get_user_context` (lines 238-252). -/

/-- Decoded JWT claims, one optional field per claim read by the code; every
field defaults to absent, so `(⟨⟩ : JwtClaims)` is the empty claims
mapping. -/
structure JwtClaims where
  sub : Option String := none
  email : Option String := none
  email_verified : Option Bool := none
  name : Option String := none
  given_name : Option String := none
  family_name : Option String := none
  picture : Option String := none
  roles : Option (List String) := none
  permissions : Option (List String) := none
  tenant_id : Option String := none
  session_id : Option String := none
  scope : Option String := none
  exp : Option Int := none
  deriving DecidableEq

/-- The whitespace class of Python's no-argument `str.split()`. -/
def isPySpace (c : Char) : Bool :=
  c == ' ' || c == '\t' || c == '\n' || c == '\r' || c == '\x0b' || c == '\x0c'

/-- Worker for Python's no-argument `str.split()`: accumulate the current
word (reversed), flush it at each whitespace run, drop empty words. -/
def splitWsAux (cur : List Char) : List Char → List (List Char)
  | [] => if cur.isEmpty then [] else [cur.reverse]
  | c :: cs =>
    if isPySpace c then
      if cur.isEmpty then splitWsAux [] cs
      else cur.reverse :: splitWsAux [] cs
    else splitWsAux (c :: cur) cs

/-- Python's no-argument `str.split()`: split on whitespace runs, discarding
empty segments, so `"a  b".split() = ["a", "b"]` and `"".split() = []`. -/
def pySplitWs (s : String) : List String :=
  (splitWsAux [] s.data).map String.mk

/-- The keyword arguments `get_user_context` passes to the `UserContext`
constructor (`auth/client.py`, lines 238-252), one field per argument. -/
structure UserContext where
  user_id : Option String
  email : Option String
  email_verified : Bool
  name : Option String
  given_name : Option String
  family_name : Option String
  picture : Option String
  roles : List String
  permissions : List String
  tenant_id : Option String
  session_id : Option String
  scopes : List String
  is_authenticated : Bool
  deriving DecidableEq

/-- The errors `get_user_context` can raise
(`shared_platform/auth/exceptions.py` via `auth/client.py`). -/
inductive AuthTokenError where
  | invalidToken (msg : String)
  | tokenExpired (msg : String)
  deriving DecidableEq

/-- The ways PyJWT's `jwt.decode` can fail: `DecodeError` (unparseable
token) or `ExpiredSignatureError` (expiry in the past, only when expiry
validation is enabled). -/
inductive JwtDecodeFailure where
  | decodeError
  | expiredSignature
  deriving DecidableEq

/-- An access token as seen by `jwt.decode`: either unparseable, or
structurally valid with a decoded claims payload (whose `exp` may lie in the
past). -/
inductive Jwt where
  | malformed
  | wellFormed (claims : JwtClaims)
  deriving DecidableEq

/-- Models the call `jwt.decode(access_token, options=...)` with
`verify_signature` set to `False` (`auth/client.py`, lines 229-232): the
token either fails to parse, raising `DecodeError`, or yields its decoded
claims. With signature verification disabled PyJWT also skips `exp`
validation, so `ExpiredSignatureError` is never raised — the repository's own
test `test_get_user_context_expired` documents exactly this: an expired token
decodes successfully. -/
def jwtDecodeUnverified : Jwt → Except JwtDecodeFailure JwtClaims
  | Jwt.malformed => Except.error JwtDecodeFailure.decodeError
  | Jwt.wellFormed claims => Except.ok claims

/-- The `UserContext(...)` construction of `get_user_context`
(`auth/client.py`, lines 238-252), field by field: `claims.get(k)` is the
optional field, `claims.get(k, d)` defaults, and `scopes` is
`claims.get("scope", "").split() if claims.get("scope") else []` — the
space-split of the scope string when it is present and non-empty (Python
truthiness), else the empty list. -/
def mkUserContext (claims : JwtClaims) : UserContext where
  user_id := claims.sub
  email := claims.email
  email_verified := claims.email_verified.getD false
  name := claims.name
  given_name := claims.given_name
  family_name := claims.family_name
  picture := claims.picture
  roles := claims.roles.getD []
  permissions := claims.permissions.getD []
  tenant_id := claims.tenant_id
  session_id := claims.session_id
  scopes :=
    match claims.scope with
    | some s => if s ≠ "" then pySplitWs s else []
    | none => []
  is_authenticated := true

/-- Embedding of `AuthClient.get_user_context` (`auth/client.py`, lines
209-252): decode the token without verification, mapping
`ExpiredSignatureError` to `TokenExpiredError` and `DecodeError` to
`InvalidTokenError`, then build the `UserContext` from the claims. -/
def get_user_context (token : Jwt) : Except AuthTokenError UserContext :=
  match jwtDecodeUnverified token with
  | Except.error JwtDecodeFailure.expiredSignature =>
    Except.error (AuthTokenError.tokenExpired "Access token is expired")
  | Except.error JwtDecodeFailure.decodeError =>
    Except.error (AuthTokenError.invalidToken "Invalid token format")
  | Except.ok claims => Except.ok (mkUserContext claims)

/-- The authorization-context value of the spec: identical to the data the
code passes to the context constructor, but with a mandatory non-empty
subject identifier. -/
structure AuthorizationContext where
  subject_id : String
  email : Option String
  display_name : Option String
  email_verified : Bool
  roles : List String
  permissions : List String
  tenant_id : Option String
  session_id : Option String
  scopes : List String
  is_authenticated : Bool
  deriving DecidableEq

/-- Modelled from the spec: `AuthorizationContext.from_claims` — the context
model class (`shared_platform/auth/models.py`, imported by `auth/client.py`
as `UserContext`) is not among the sources, so its construction contract is
taken from spec §4.4: the subject identifier is required (fail with
`InvalidTokenError` when absent or empty), optional claims default to
empty/false/none, and the scopes claim, when present, is a space-delimited
string split into an ordered sequence. -/
def from_claims (claims : JwtClaims) :
    Except AuthTokenError AuthorizationContext :=
  match claims.sub with
  | none => Except.error (AuthTokenError.invalidToken "missing subject")
  | some s =>
    if s = "" then
      Except.error (AuthTokenError.invalidToken "missing subject")
    else
      Except.ok
        { subject_id := s
          email := claims.email
          display_name := claims.name
          email_verified := claims.email_verified.getD false
          roles := claims.roles.getD []
          permissions := claims.permissions.getD []
          tenant_id := claims.tenant_id
          session_id := claims.session_id
          scopes :=
            match claims.scope with
            | some sc => pySplitWs sc
            | none => []
          is_authenticated := true }

/-! ### Lemmas about `splitWsAux` and `pySplitWs` -/

lemma splitWsAux_word (w : List Char) (hw : ∀ ch ∈ w, isPySpace ch = false) :
    ∀ cur rest, splitWsAux cur (w ++ rest) = splitWsAux (w.reverse ++ cur) rest := by
  induction w with
  | nil => intro cur rest; simp
  | cons c cs ih =>
    intro cur rest
    have hc : isPySpace c = false := hw c (List.mem_cons_self c cs)
    simp only [List.cons_append, splitWsAux, hc, Bool.false_eq_true,
      if_false, List.append_eq]
    rw [ih (fun ch hch => hw ch (List.mem_cons_of_mem c hch)) (c :: cur) rest]
    simp [List.append_assoc]

lemma splitWsAux_nil_end (cur : List Char) (h : cur ≠ []) :
    splitWsAux cur [] = [cur.reverse] := by
  cases cur with
  | nil => exact absurd rfl h
  | cons a as => rfl

lemma splitWsAux_space (cur rest : List Char) (h : cur ≠ []) :
    splitWsAux cur (' ' :: rest) = cur.reverse :: splitWsAux [] rest := by
  cases cur with
  | nil => exact absurd rfl h
  | cons a as => rfl

/-- A space-delimited source string for a sequence of scope tokens. -/
def joinWords : List String → String
  | [] => ""
  | [t] => t
  | t :: ts => t ++ " " ++ joinWords ts

/-- Round trip: Python's `split()` applied to the space-joined token sequence
returns exactly that sequence (order preserved, duplicates retained), for
tokens that are non-empty and whitespace-free. -/
lemma pySplitWs_join (toks : List String)
    (h : ∀ t ∈ toks, t.data ≠ [] ∧ ∀ ch ∈ t.data, isPySpace ch = false) :
    pySplitWs (joinWords toks) = toks := by
  induction toks with
  | nil => rfl
  | cons t ts ih =>
    obtain ⟨hne, hch⟩ := h t (List.mem_cons_self t ts)
    cases ts with
    | nil =>
      show (splitWsAux [] (joinWords [t]).data).map String.mk = [t]
      have h2 := splitWsAux_word t.data hch [] []
      rw [List.append_nil, List.append_nil] at h2
      rw [show joinWords [t] = t from rfl, h2,
        splitWsAux_nil_end _ (by simpa using hne), List.reverse_reverse]
      rfl
    | cons t' ts' =>
      have hrest := fun u hu => h u (List.mem_cons_of_mem t hu)
      have hdata : (joinWords (t :: t' :: ts')).data
          = t.data ++ ' ' :: (joinWords (t' :: ts')).data := by
        show (t ++ " " ++ joinWords (t' :: ts')).data = _
        rw [String.data_append, String.data_append, List.append_assoc]
        rfl
      show (splitWsAux [] (joinWords (t :: t' :: ts')).data).map String.mk = _
      rw [hdata, splitWsAux_word t.data hch [] _, List.append_nil,
        splitWsAux_space _ _ (by simpa using hne), List.reverse_reverse]
      show t :: pySplitWs (joinWords (t' :: ts')) = t :: t' :: ts'
      rw [ih hrest]

/-! ### Claim C7 -/

/-- C7 (spec-modelled): constructing an authorization context from decoded
claims that lack a subject identifier (`sub` absent or empty) fails with
`InvalidTokenError`, and a context value is never produced without a
non-empty subject id — construction either fully fails or fully succeeds, so
no partially-built context is observable. -/
theorem C7_subject_required :
    (∀ c : JwtClaims, c.sub = none ∨ c.sub = some "" →
      from_claims c
        = Except.error (AuthTokenError.invalidToken "missing subject"))
    ∧ (∀ (c : JwtClaims) (ctx : AuthorizationContext),
        from_claims c = Except.ok ctx →
          ctx.subject_id ≠ "" ∧ c.sub = some ctx.subject_id) := by
  constructor
  · rintro c (hc | hc) <;> simp [from_claims, hc]
  · intro c ctx h
    rcases hc : c.sub with _ | s
    · simp only [from_claims, hc] at h
      exact Except.noConfusion h
    · simp only [from_claims, hc] at h
      by_cases hs : s = ""
      · subst hs; simp at h
      · rw [if_neg hs] at h
        injection h with h2
        subst h2
        refine ⟨hs, ?_⟩
        simp [hc]

/-- C7 witness: the empty claims mapping fails with `InvalidTokenError`, and
from the claims with subject `"u1"` the produced context has a non-empty
subject. -/
theorem C7_subject_required_witness :
    from_claims ({} : JwtClaims)
      = Except.error (AuthTokenError.invalidToken "missing subject")
    ∧ "u1" ≠ "" :=
  ⟨C7_subject_required.1 {} (Or.inl rfl),
   (C7_subject_required.2 { sub := some "u1" }
     { subject_id := "u1", email := none, display_name := none,
       email_verified := false, roles := [], permissions := [],
       tenant_id := none, session_id := none, scopes := [],
       is_authenticated := true } rfl).1⟩

/-! ### Claim C8 -/

/-- The decoded payload of the `expired_access_token` fixture of
`tests/conftest.py`: subject `user-123` with an `exp` one hour in the past
(frozen here to the epoch second 1704063600, one hour before a "now" of
1704067200). -/
def expiredClaims : JwtClaims :=
  { sub := some "user-123", email := some "test@example.com",
    name := some "Test User", roles := some ["user"],
    permissions := some [], exp := some 1704063600 }

/-- C8: evaluating `get_user_context` at the failing input — a structurally
valid token whose `exp` claim is in the past — the code returns a
`UserContext` instead of raising `TokenExpiredError`: `jwt.decode` with
signature verification disabled never raises `ExpiredSignatureError`, so
every decodable token produces a context and the `TokenExpiredError` branch
is unreachable; the `InvalidTokenError` half of the claim does hold for
unparseable tokens. -/
theorem C8_expired_token_still_decodes :
    get_user_context (Jwt.wellFormed expiredClaims)
      = Except.ok (mkUserContext expiredClaims)
    ∧ expiredClaims.exp = some 1704063600
    ∧ (∀ c : JwtClaims,
        get_user_context (Jwt.wellFormed c) = Except.ok (mkUserContext c))
    ∧ get_user_context Jwt.malformed
      = Except.error (AuthTokenError.invalidToken "Invalid token format") :=
  ⟨rfl, rfl, fun _ => rfl, rfl⟩

/-! ### Claim C9 -/

/-- C9: in the context construction of `get_user_context`, a present scope
claim is split into an ordered sequence of scope tokens which becomes the
context's scopes — splitting the space-joined form of any token sequence
(tokens non-empty, whitespace-free) returns exactly that sequence, order
preserved and duplicates retained; if the scope claim is absent the
context's scopes are the empty sequence. -/
theorem C9_scope_parsing :
    (∀ c : JwtClaims, c.scope = none → (mkUserContext c).scopes = [])
    ∧ (∀ (c : JwtClaims) (s : String), c.scope = some s →
        (mkUserContext c).scopes = pySplitWs s)
    ∧ (∀ toks : List String,
        (∀ t ∈ toks, t.data ≠ [] ∧ ∀ ch ∈ t.data, isPySpace ch = false) →
        pySplitWs (joinWords toks) = toks) := by
  refine ⟨?_, ?_, pySplitWs_join⟩
  · intro c hc
    simp [mkUserContext, hc]
  · intro c s hc
    simp only [mkUserContext, hc]
    by_cases hs : s = ""
    · subst hs
      rfl
    · simp [hs]

/-- C9 witness: a scope claim of `"openid profile openid"` yields exactly the
scope sequence `["openid", "profile", "openid"]` — order preserved,
duplicate retained. -/
theorem C9_scope_parsing_witness :
    (mkUserContext { scope := some "openid profile openid" }).scopes
      = ["openid", "profile", "openid"]
    ∧ pySplitWs (joinWords ["a", "b", "a"]) = ["a", "b", "a"] := by
  constructor
  · rw [C9_scope_parsing.2.1 { scope := some "openid profile openid" }
      "openid profile openid" rfl]
    rfl
  · exact C9_scope_parsing.2.2 ["a", "b", "a"] (by decide)

end SharedPlatform
